import Mathlib

/-!
Verification of the AI Legal Chatbot backend (`main.py`, `schemas.py`).

Shallow embedding of the FastAPI backend in `src/main.py`.  Text is modelled
as `List Char` (Python `str`), documents as association lists of Python
values, and the document database as explicit state threaded through the
handlers.  The data-access module `database.py` (functions `create_document`
and `get_documents`) is not part of the source tree; its behaviour is
modelled from the spec, which describes it as a thin wrapper exposing
"create" and "query" primitives over a document database that may be
unavailable (every call raising an exception in that case).
-/

deriving instance DecidableEq for Except

set_option maxRecDepth 8192

namespace LegalChat

/-- Python `str` modelled as a list of characters. -/
abbrev Str := List Char

/-- The whitespace characters removed by Python's `str.strip()` (ASCII part:
space, tab, newline, carriage return, vertical tab, form feed). -/
def pyIsSpace (c : Char) : Bool :=
  c = ' ' || c = '\t' || c = '\n' || c = '\r' || c = '\x0b' || c = '\x0c'

/-- Python `s.strip()`: drop whitespace from both ends. -/
def pyStrip (s : Str) : Str :=
  ((s.dropWhile pyIsSpace).reverse.dropWhile pyIsSpace).reverse

/-- Request body of `POST /api/chat` (`class ChatRequest`, main.py:21-23). -/
structure ChatRequest where
  conversation_id : Option Str
  message : Str
deriving DecidableEq

/-- Response body of `POST /api/chat` (`class ChatResponse`, main.py:25-27). -/
structure ChatResponse where
  conversation_id : Str
  reply : Str
deriving DecidableEq

/-- A document of the `conversation` collection (`class Conversation`,
schemas.py:20-25). -/
structure ConversationDoc where
  title : Str
deriving DecidableEq

/-- A document of the `message` collection (`class Message`,
schemas.py:27-34). -/
structure MessageDoc where
  conversation_id : Str
  role : Str
  content : Str
deriving DecidableEq

/-- Modelled from the spec: the document database behind `database.py`.
`available = false` is the "DB unavailable" situation of the spec, in which
every `create_document` call raises.  Created documents receive fresh string
ids from a counter (standing in for MongoDB ObjectIds); documents are kept
in creation order. -/
structure DBState where
  available : Bool
  nextId : Nat
  conversations : List (Str × ConversationDoc)
  messages : List (Str × MessageDoc)
deriving DecidableEq

/-- The string id handed out for the `n`-th created document. -/
def freshId (n : Nat) : Str := (Nat.repr n).data

/-- Modelled from the spec: `create_document("conversation", doc)` from the
missing `database.py` — inserts the document and returns its new id, or
raises (`Except.error`) when the database is unavailable. -/
def create_conversation (s : DBState) (d : ConversationDoc) :
    Except Unit (Str × DBState) :=
  if s.available then
    .ok (freshId s.nextId,
      { s with nextId := s.nextId + 1,
               conversations := s.conversations ++ [(freshId s.nextId, d)] })
  else .error ()

/-- Modelled from the spec: `create_document("message", doc)` from the
missing `database.py` — inserts the document and returns its new id, or
raises when the database is unavailable. -/
def create_message (s : DBState) (d : MessageDoc) :
    Except Unit (Str × DBState) :=
  if s.available then
    .ok (freshId s.nextId,
      { s with nextId := s.nextId + 1,
               messages := s.messages ++ [(freshId s.nextId, d)] })
  else .error ()

/-- Python truthiness of the optional `conversation_id` field:
`None` and the empty string are falsy. -/
def pyTruthyOptStr : Option Str → Bool
  | none => false
  | some s => !s.isEmpty

/-- How a call of the `chat` handler terminates abnormally:
an `HTTPException(status, detail)` it raises itself, or an exception from
`create_document` that propagates out uncaught. -/
inductive ChatError
  | http (status : Nat) (detail : Str)
  | dbError
deriving DecidableEq

/-- The fixed text before the user's message in the reply (main.py:78). -/
def replyHead : Str :=
  "I am not a lawyer, but here is general information based on your question: ".data

/-- The fixed text after the user's message in the reply (main.py:80). -/
def replyTail : Str :=
  " — For legal advice, consult a licensed attorney in your jurisdiction.".data

/-- The assistant reply built for a stripped message (main.py:77-81). -/
def templateReply (m : Str) : Str := replyHead ++ m ++ replyTail

/-- The `chat` handler (main.py:69-96), with the database state passed
explicitly.  Returns the HTTP outcome together with the post-state:
* empty/whitespace message → `HTTPException(400)` (main.py:71-72);
* no (or falsy) `conversation_id` → `create_document("conversation", ...)`
  outside any `try`, so a raise propagates (main.py:84-86);
* the two message writes sit in a `try
  ... except` that substitutes `conv_id or "temporary"` (main.py:89-96). -/
def chat (s : DBState) (req : ChatRequest) :
    Except ChatError ChatResponse × DBState :=
  if pyStrip req.message = [] then
    (.error (.http 400 "Message cannot be empty".data), s)
  else
    let user_msg := pyStrip req.message
    let assistant_reply := replyHead ++ user_msg ++ replyTail
    let ensured :=
      if pyTruthyOptStr req.conversation_id then
        .ok (req.conversation_id.getD [], s)
      else
        create_conversation s
          ⟨if user_msg.take 60 = [] then "New Conversation".data
           else user_msg.take 60⟩
    match ensured with
    | .error _ => (.error .dbError, s)
    | .ok (conv_id, s1) =>
      match create_message s1 ⟨conv_id, "user".data, user_msg⟩ with
      | .error _ =>
          (.ok ⟨if conv_id = [] then "temporary".data else conv_id,
                assistant_reply⟩, s1)
      | .ok (_, s2) =>
        match create_message s2 ⟨conv_id, "assistant".data, assistant_reply⟩ with
        | .error _ =>
            (.ok ⟨if conv_id = [] then "temporary".data else conv_id,
                  assistant_reply⟩, s2)
        | .ok (_, s3) => (.ok ⟨conv_id, assistant_reply⟩, s3)

/-- A Python/BSON value as stored in a document field, restricted to the
shapes the content handlers touch: `None`, a string, or a list of strings
(`metrics` and `features` are `List[str]` in schemas.py). -/
inductive PyVal
  | null
  | str (s : Str)
  | list (l : List Str)
deriving DecidableEq

/-- Python truthiness: `None`, `""` and `[]` are falsy. -/
def pyTruthy : PyVal → Bool
  | .null => false
  | .str s => !s.isEmpty
  | .list l => !l.isEmpty

/-- Whether a value is a Python list. -/
def pyIsList : PyVal → Bool
  | .list _ => true
  | _ => false

/-- A database document: a dictionary from field names to values. -/
abbrev PyDoc := List (Str × PyVal)

/-- Python `d.get(k)`: first binding of `k`, or `None` when missing. -/
def pyGet (d : PyDoc) (k : Str) : PyVal :=
  match d.find? (fun p => p.1 = k) with
  | some p => p.2
  | none => .null

/-- One item of the `/api/plans` response (main.py:147-156 shape). -/
structure PlanItem where
  name : PyVal
  price : PyVal
  description : PyVal
  features : PyVal
deriving DecidableEq

/-- One item of the `/api/case-studies` response (main.py:102-108 shape). -/
structure CaseStudyItem where
  title : PyVal
  industry : PyVal
  summary : PyVal
  impact : PyVal
  metrics : PyVal
deriving DecidableEq

/-- The hardcoded default plans (main.py:146-180). -/
def defaultPlans : List PlanItem :=
  [ { name := .str "Starter".data,
      price := .str "$29/mo".data,
      description := .str "For solos and small teams exploring AI assistance.".data,
      features := .list
        [ "100 chats/mo".data, "Basic contract Q&A".data,
          "Email summaries".data, "Community support".data ] },
    { name := .str "Pro".data,
      price := .str "$99/mo".data,
      description := .str "For growing teams that need faster reviews and guardrails.".data,
      features := .list
        [ "1000 chats/mo".data, "Clause extraction".data,
          "Upload + annotate PDFs".data, "SAML SSO".data ] },
    { name := .str "Enterprise".data,
      price := .str "Custom".data,
      description := .str "Tailored deployments, private data, and advanced controls.".data,
      features := .list
        [ "Unlimited chats".data, "Private knowledge base".data,
          "SOC2, HIPAA options".data, "Dedicated support".data ] } ]

/-- The hardcoded default case studies (main.py:101-123). -/
def defaultCaseStudies : List CaseStudyItem :=
  [ { title := .str "Contract Review for SaaS Provider".data,
      industry := .str "Technology".data,
      summary := .str "Automated early risk flags in MSAs and DPAs.".data,
      impact := .str "70% faster first-pass review".data,
      metrics := .list
        [ "-70% review time".data, "+30% throughput".data,
          "99% clause coverage".data ] },
    { title := .str "Compliance Intake for HR Policies".data,
      industry := .str "Healthcare".data,
      summary := .str "Answer common employee compliance questions.".data,
      impact := .str "Reduced legal tickets by 45%".data,
      metrics := .list
        [ "45% fewer tickets".data, "24/7 availability".data ] },
    { title := .str "Discovery Q&A for Litigation Team".data,
      industry := .str "Legal Services".data,
      summary := .str "Natural-language search over prior filings.".data,
      impact := .str "Improved first-draft quality".data,
      metrics := .list
        [ "2x faster drafting".data, "Centralized knowledge".data ] } ]

/-- Building a plan item from a DB document (main.py:186-191):
every field is `d.get(...)`, with `features` passed through
`d.get("features") or []`. -/
def planOfDoc (d : PyDoc) : PlanItem :=
  { name := pyGet d "name".data,
    price := pyGet d "price".data,
    description := pyGet d "description".data,
    features :=
      if pyTruthy (pyGet d "features".data) then pyGet d "features".data
      else .list [] }

/-- Building a case-study item from a DB document (main.py:130-136). -/
def caseStudyOfDoc (d : PyDoc) : CaseStudyItem :=
  { title := pyGet d "title".data,
    industry := pyGet d "industry".data,
    summary := pyGet d "summary".data,
    impact := pyGet d "impact".data,
    metrics :=
      if pyTruthy (pyGet d "metrics".data) then pyGet d "metrics".data
      else .list [] }

/-- The `get_plans` handler (main.py:144-197).  Its argument is the outcome
of `get_documents("plan", {}, limit=20)` — a raise (`Except.error`, the
database being unavailable) or the list of documents found; the handler's
`try ... except Exception: pass` keeps the defaults on a raise, and
`if docs:` keeps them on an empty result. -/
def get_plans (q : Except Unit (List PyDoc)) : List PlanItem :=
  match q with
  | .error _ => defaultPlans
  | .ok docs => if docs.isEmpty then defaultPlans else docs.map planOfDoc

/-- The `get_case_studies` handler (main.py:98-142), same structure as
`get_plans` over `get_documents("casestudy", {}, limit=50)`. -/
def get_case_studies (q : Except Unit (List PyDoc)) : List CaseStudyItem :=
  match q with
  | .error _ => defaultCaseStudies
  | .ok docs => if docs.isEmpty then defaultCaseStudies
                else docs.map caseStudyOfDoc

/-- Naive substring test: `strContains s pat` is `true` iff `pat` occurs
contiguously in `s` (Python `pat in s`). -/
def strContains (s pat : Str) : Bool :=
  (List.range (s.length + 1)).any (fun i => (s.drop i).take pat.length = pat)

/-- An available database holding no documents. -/
def emptyDB : DBState := ⟨true, 0, [], []⟩

/-- Modelled from the spec: an unavailable database — every
`create_document` call raises. -/
def downDB : DBState := ⟨false, 0, [], []⟩

/-- A sample stored document with truthy list values under `"features"`
and `"metrics"`, used to instantiate the field lemmas. -/
def sampleDoc : PyDoc :=
  [("features".data, PyVal.list ["Unlimited chats".data]),
   ("metrics".data, PyVal.list ["2x faster drafting".data]),
   ("name".data, PyVal.str "Solo".data)]

/-- A truthy optional string is some non-empty string. -/
theorem pyTruthyOptStr_eq_true {o : Option Str} (h : pyTruthyOptStr o = true) :
    ∃ c, o = some c ∧ c ≠ [] := by
  match o with
  | none => exact absurd h (by simp [pyTruthyOptStr])
  | some [] => exact absurd h (by simp [pyTruthyOptStr])
  | some (a :: t) => exact ⟨a :: t, rfl, by simp⟩

/-- `l[:60]` of a non-empty string is non-empty. -/
theorem take_sixty_ne_nil {l : Str} (h : l ≠ []) : l.take 60 ≠ [] := by
  match l with
  | [] => exact absurd rfl h
  | a :: t => simp

/-- A string occurs in any string assembled around it. -/
theorem strContains_of_append (u m v : Str) :
    strContains (u ++ m ++ v) m = true := by
  unfold strContains
  rw [List.any_eq_true]
  refine ⟨u.length, ?_, ?_⟩
  · rw [List.mem_range]
    simp [List.length_append]
    omega
  · rw [List.append_assoc, List.drop_left, List.take_left]
    simp

/-- Characterization of `chat` on an empty-after-strip message:
`HTTPException(400)` before touching the database (main.py:71-72). -/
theorem chat_eq_of_invalid (s : DBState) (req : ChatRequest)
    (hmsg : pyStrip req.message = []) :
    chat s req = (.error (.http 400 "Message cannot be empty".data), s) := by
  simp [chat, hmsg]

/-- Characterization of `chat` on a valid message with a non-empty
`conversation_id`: no conversation is created; the two message writes run,
succeeding or raising together with availability. -/
theorem chat_eq_given_id (s : DBState) (req : ChatRequest) (c : Str)
    (hmsg : pyStrip req.message ≠ [])
    (hid : req.conversation_id = some c) (hc : c ≠ []) :
    chat s req =
      if s.available then
        (.ok ⟨c, templateReply (pyStrip req.message)⟩,
         { s with nextId := s.nextId + 2,
                  messages := s.messages ++
                    [(freshId s.nextId, ⟨c, "user".data, pyStrip req.message⟩),
                     (freshId (s.nextId + 1),
                      ⟨c, "assistant".data, templateReply (pyStrip req.message)⟩)] })
      else (.ok ⟨c, templateReply (pyStrip req.message)⟩, s) := by
  have htruthy : pyTruthyOptStr (some c) = true := by
    cases c with
    | nil => exact absurd rfl hc
    | cons a t => rfl
  cases hav : s.available with
  | false =>
    simp [chat, if_neg hmsg, htruthy, hid, create_message, hav, templateReply, hc]
  | true =>
    simp [chat, if_neg hmsg, htruthy, hid, create_message, hav, templateReply, hc]

/-- Characterization of `chat` on a valid message with no (or falsy)
`conversation_id`: a conversation is created first, outside any `try`, so
an unavailable database makes the whole handler raise. -/
theorem chat_eq_no_id (s : DBState) (req : ChatRequest)
    (hmsg : pyStrip req.message ≠ [])
    (hid : pyTruthyOptStr req.conversation_id = false) :
    chat s req =
      if s.available then
        (.ok ⟨freshId s.nextId, templateReply (pyStrip req.message)⟩,
         { s with nextId := s.nextId + 3,
                  conversations := s.conversations ++
                    [(freshId s.nextId, ⟨(pyStrip req.message).take 60⟩)],
                  messages := s.messages ++
                    [(freshId (s.nextId + 1),
                      ⟨freshId s.nextId, "user".data, pyStrip req.message⟩),
                     (freshId (s.nextId + 2),
                      ⟨freshId s.nextId, "assistant".data,
                       templateReply (pyStrip req.message)⟩)] })
      else (.error .dbError, s) := by
  have htake := take_sixty_ne_nil hmsg
  cases hav : s.available with
  | false => simp [chat, if_neg hmsg, hid, create_conversation, hav]
  | true =>
    simp [chat, if_neg hmsg, hid, create_conversation, create_message, hav,
      htake, templateReply]

/-- `chat_eq_given_id` specialized to an available database. -/
theorem chat_eq_given_id_up (s : DBState) (req : ChatRequest) (c : Str)
    (hmsg : pyStrip req.message ≠ [])
    (hid : req.conversation_id = some c) (hc : c ≠ [])
    (hav : s.available = true) :
    chat s req =
      (.ok ⟨c, templateReply (pyStrip req.message)⟩,
       { s with nextId := s.nextId + 2,
                messages := s.messages ++
                  [(freshId s.nextId, ⟨c, "user".data, pyStrip req.message⟩),
                   (freshId (s.nextId + 1),
                    ⟨c, "assistant".data, templateReply (pyStrip req.message)⟩)] }) := by
  rw [chat_eq_given_id s req c hmsg hid hc, hav, if_pos rfl]

/-- `chat_eq_given_id` specialized to an unavailable database. -/
theorem chat_eq_given_id_down (s : DBState) (req : ChatRequest) (c : Str)
    (hmsg : pyStrip req.message ≠ [])
    (hid : req.conversation_id = some c) (hc : c ≠ [])
    (hav : s.available = false) :
    chat s req = (.ok ⟨c, templateReply (pyStrip req.message)⟩, s) := by
  rw [chat_eq_given_id s req c hmsg hid hc, hav, if_neg Bool.false_ne_true]

/-- `chat_eq_no_id` specialized to an available database. -/
theorem chat_eq_no_id_up (s : DBState) (req : ChatRequest)
    (hmsg : pyStrip req.message ≠ [])
    (hid : pyTruthyOptStr req.conversation_id = false)
    (hav : s.available = true) :
    chat s req =
      (.ok ⟨freshId s.nextId, templateReply (pyStrip req.message)⟩,
       { s with nextId := s.nextId + 3,
                conversations := s.conversations ++
                  [(freshId s.nextId, ⟨(pyStrip req.message).take 60⟩)],
                messages := s.messages ++
                  [(freshId (s.nextId + 1),
                    ⟨freshId s.nextId, "user".data, pyStrip req.message⟩),
                   (freshId (s.nextId + 2),
                    ⟨freshId s.nextId, "assistant".data,
                     templateReply (pyStrip req.message)⟩)] }) := by
  rw [chat_eq_no_id s req hmsg hid, hav, if_pos rfl]

/-- `chat_eq_no_id` specialized to an unavailable database: the raise from
`create_document("conversation", ...)` propagates. -/
theorem chat_eq_no_id_down (s : DBState) (req : ChatRequest)
    (hmsg : pyStrip req.message ≠ [])
    (hid : pyTruthyOptStr req.conversation_id = false)
    (hav : s.available = false) :
    chat s req = (.error .dbError, s) := by
  rw [chat_eq_no_id s req hmsg hid, hav, if_neg Bool.false_ne_true]

/-- C1: evaluating `chat` against an unavailable database. The claim says
every such request gets a 200 reply, with conversation_id `"temporary"`
when none was supplied. In the code the
`create_document("conversation", ...)` call (main.py:86) sits outside the
`try`, so with no conversation_id the exception propagates and the request
fails; only the supplied-id half behaves as claimed. This contradicts the
code's own comment (main.py:93, "If DB unavailable, still respond but mark
conversation_id as provided or temp"). -/
theorem chat_db_down_outcome :
    chat downDB ⟨none, "hi".data⟩ = (.error .dbError, downDB) ∧
    chat downDB ⟨some "c7".data, "hi".data⟩ =
      (.ok ⟨"c7".data, templateReply "hi".data⟩, downDB) := by decide

/-- C2 (counterexample): for the message `" hello "` (non-empty after
stripping) the returned reply embeds the stripped text `"hello"`, not the
request's message text verbatim, refuting the claim as stated. -/
theorem chat_reply_not_verbatim_cex :
    pyStrip " hello ".data ≠ [] ∧
    Except.map ChatResponse.reply (chat emptyDB ⟨none, " hello ".data⟩).1 ≠
      Except.ok (replyHead ++ " hello ".data ++ replyTail) ∧
    Except.map ChatResponse.reply (chat emptyDB ⟨none, " hello ".data⟩).1 =
      Except.ok (replyHead ++ "hello".data ++ replyTail) := by decide

/-- C2 (amended): whenever `chat` returns a response — for every database
state and request — its reply is the fixed template with the request's
message text stripped of surrounding whitespace embedded verbatim between
the fixed head and tail. -/
theorem chat_reply_template (s : DBState) (req : ChatRequest)
    (r : ChatResponse) (hok : (chat s req).1 = .ok r) :
    r.reply = replyHead ++ pyStrip req.message ++ replyTail := by
  by_cases hmsg : pyStrip req.message = []
  · rw [chat_eq_of_invalid s req hmsg] at hok
    exact Except.noConfusion hok
  · cases hid : pyTruthyOptStr req.conversation_id with
    | false =>
      cases hav : s.available with
      | false =>
        rw [chat_eq_no_id_down s req hmsg hid hav] at hok
        exact Except.noConfusion hok
      | true =>
        rw [chat_eq_no_id_up s req hmsg hid hav] at hok
        rw [← Except.ok.inj hok]
        rfl
    | true =>
      obtain ⟨c, hc, hcne⟩ := pyTruthyOptStr_eq_true hid
      cases hav : s.available with
      | false =>
        rw [chat_eq_given_id_down s req c hmsg hc hcne hav] at hok
        rw [← Except.ok.inj hok]
        rfl
      | true =>
        rw [chat_eq_given_id_up s req c hmsg hc hcne hav] at hok
        rw [← Except.ok.inj hok]
        rfl

/-- Witness for `chat_reply_template` at the request `" hello "` against
the empty available database. -/
theorem chat_reply_template_witness :
    (ChatResponse.mk (freshId 0) (templateReply "hello".data)).reply =
      replyHead ++ pyStrip " hello ".data ++ replyTail :=
  chat_reply_template emptyDB ⟨none, " hello ".data⟩
    ⟨freshId 0, templateReply "hello".data⟩ (by decide)

/-- C3: a message that is empty after stripping makes `chat` fail with
`HTTPException(400, "Message cannot be empty")`, and the database state is
returned unchanged — no conversation or message document is created. -/
theorem chat_empty_message_400 (s : DBState) (req : ChatRequest)
    (hmsg : pyStrip req.message = []) :
    chat s req = (.error (.http 400 "Message cannot be empty".data), s) := by
  simp [chat, hmsg]

/-- Witness for `chat_empty_message_400` at a whitespace-only message. -/
theorem chat_empty_message_400_witness :
    pyStrip "  \t ".data = [] ∧
    chat emptyDB ⟨none, "  \t ".data⟩ =
      (.error (.http 400 "Message cannot be empty".data), emptyDB) :=
  ⟨by decide, chat_empty_message_400 emptyDB ⟨none, "  \t ".data⟩ (by decide)⟩

/-- C4 (counterexample): for the message `"  hi"` the returned reply does
not contain the request's message text (the two leading spaces are
stripped), refuting the containment part of the claim as stated. -/
theorem chat_contains_verbatim_cex :
    pyStrip "  hi".data ≠ [] ∧
    (chat emptyDB ⟨none, "  hi".data⟩).1 =
      .ok ⟨freshId 0, templateReply "hi".data⟩ ∧
    strContains (templateReply "hi".data) "  hi".data = false := by decide

/-- C4 (amended): for a valid message with no `conversation_id` against an
available database, `chat` appends exactly one new Conversation document
and returns its id as the response's conversation_id, and the reply
contains the stripped input message text. -/
theorem chat_new_conversation (s : DBState) (req : ChatRequest)
    (hav : s.available = true) (hid : req.conversation_id = none)
    (hmsg : pyStrip req.message ≠ []) :
    (chat s req).1 =
      .ok ⟨freshId s.nextId, templateReply (pyStrip req.message)⟩ ∧
    (chat s req).2.conversations =
      s.conversations ++
        [(freshId s.nextId, ⟨(pyStrip req.message).take 60⟩)] ∧
    strContains (templateReply (pyStrip req.message))
      (pyStrip req.message) = true := by
  have hidf : pyTruthyOptStr req.conversation_id = false := by rw [hid]; rfl
  have h := chat_eq_no_id_up s req hmsg hidf hav
  refine ⟨by rw [h], by rw [h], ?_⟩
  exact strContains_of_append replyHead (pyStrip req.message) replyTail

/-- Witness for `chat_new_conversation` at the request `"hi there"`. -/
theorem chat_new_conversation_witness :
    (chat emptyDB ⟨none, "hi there".data⟩).1 =
      .ok ⟨freshId emptyDB.nextId, templateReply (pyStrip "hi there".data)⟩ ∧
    (chat emptyDB ⟨none, "hi there".data⟩).2.conversations =
      emptyDB.conversations ++
        [(freshId emptyDB.nextId, ⟨(pyStrip "hi there".data).take 60⟩)] ∧
    strContains (templateReply (pyStrip "hi there".data))
      (pyStrip "hi there".data) = true :=
  chat_new_conversation emptyDB ⟨none, "hi there".data⟩ rfl rfl (by decide)

/-- C5: a successful chat request (valid message, writes succeed) appends
exactly two Message documents, in order: role `"user"` with the stripped
input as content, then role `"assistant"` with the returned reply as
content, both carrying the returned conversation_id. -/
theorem chat_two_messages (s : DBState) (req : ChatRequest) (r : ChatResponse)
    (hav : s.available = true) (hok : (chat s req).1 = .ok r) :
    ∃ i j, (chat s req).2.messages =
      s.messages ++
        [(i, ⟨r.conversation_id, "user".data, pyStrip req.message⟩),
         (j, ⟨r.conversation_id, "assistant".data, r.reply⟩)] := by
  by_cases hmsg : pyStrip req.message = []
  · rw [chat_eq_of_invalid s req hmsg] at hok
    exact Except.noConfusion hok
  · cases hid : pyTruthyOptStr req.conversation_id with
    | false =>
      have h := chat_eq_no_id_up s req hmsg hid hav
      have hr : r = ⟨freshId s.nextId, templateReply (pyStrip req.message)⟩ := by
        rw [h] at hok
        exact (Except.ok.inj hok).symm
      subst hr
      exact ⟨freshId (s.nextId + 1), freshId (s.nextId + 2), by rw [h]⟩
    | true =>
      obtain ⟨c, hc, hcne⟩ := pyTruthyOptStr_eq_true hid
      have h := chat_eq_given_id_up s req c hmsg hc hcne hav
      have hr : r = ⟨c, templateReply (pyStrip req.message)⟩ := by
        rw [h] at hok
        exact (Except.ok.inj hok).symm
      subst hr
      exact ⟨freshId s.nextId, freshId (s.nextId + 1), by rw [h]⟩

/-- Witness for `chat_two_messages` at the request `"ok then"` with
conversation_id `"c9"` against the empty available database. -/
theorem chat_two_messages_witness :
    ∃ i j, (chat emptyDB ⟨some "c9".data, "ok then".data⟩).2.messages =
      emptyDB.messages ++
        [(i, ⟨"c9".data, "user".data, pyStrip "ok then".data⟩),
         (j, ⟨"c9".data, "assistant".data,
          templateReply (pyStrip "ok then".data)⟩)] :=
  chat_two_messages emptyDB ⟨some "c9".data, "ok then".data⟩
    ⟨"c9".data, templateReply (pyStrip "ok then".data)⟩ rfl (by decide)

/-- C6: when the plan query raises (database unavailable) or returns no
documents, `get_plans` returns exactly the three hardcoded default plans —
Starter, Pro, Enterprise — in that order. -/
theorem get_plans_defaults (q : Except Unit (List PyDoc))
    (h : q = .error () ∨ q = .ok []) :
    get_plans q = defaultPlans ∧
    defaultPlans.map PlanItem.name =
      [.str "Starter".data, .str "Pro".data, .str "Enterprise".data] := by
  refine ⟨?_, by decide⟩
  rcases h with rfl | rfl <;> rfl

/-- Witness for `get_plans_defaults` at the empty query result. -/
theorem get_plans_defaults_witness :
    get_plans (.ok []) = defaultPlans ∧
    defaultPlans.map PlanItem.name =
      [.str "Starter".data, .str "Pro".data, .str "Enterprise".data] :=
  get_plans_defaults (.ok []) (.inr rfl)

/-- C7: the content handlers never raise — they return a value for every
query outcome: the hardcoded defaults when the query raised (exception
swallowed) or found no documents, and, whenever the query succeeded with
at least one document, the items built from those documents instead of
the defaults. -/
theorem content_handlers_degrade (qp qc : Except Unit (List PyDoc)) :
    (∀ e, qp = .error e → get_plans qp = defaultPlans) ∧
    (qp = .ok [] → get_plans qp = defaultPlans) ∧
    (∀ ds, qp = .ok ds → ds ≠ [] → get_plans qp = ds.map planOfDoc) ∧
    (∀ e, qc = .error e → get_case_studies qc = defaultCaseStudies) ∧
    (qc = .ok [] → get_case_studies qc = defaultCaseStudies) ∧
    (∀ ds, qc = .ok ds → ds ≠ [] →
      get_case_studies qc = ds.map caseStudyOfDoc) := by
  refine ⟨?_, ?_, ?_, ?_, ?_, ?_⟩
  · intro e he
    subst he
    rfl
  · intro he
    subst he
    rfl
  · intro ds hds hne
    subst hds
    cases ds with
    | nil => exact absurd rfl hne
    | cons d t => rfl
  · intro e he
    subst he
    rfl
  · intro he
    subst he
    rfl
  · intro ds hds hne
    subst hds
    cases ds with
    | nil => exact absurd rfl hne
    | cons d t => rfl

/-- Witness for `content_handlers_degrade` at a one-document plan query
and a raising case-study query. -/
theorem content_handlers_degrade_witness :
    (∀ e, (Except.ok [sampleDoc] : Except Unit (List PyDoc)) = .error e →
      get_plans (.ok [sampleDoc]) = defaultPlans) ∧
    ((Except.ok [sampleDoc] : Except Unit (List PyDoc)) = .ok [] →
      get_plans (.ok [sampleDoc]) = defaultPlans) ∧
    (∀ ds, (Except.ok [sampleDoc] : Except Unit (List PyDoc)) = .ok ds →
      ds ≠ [] → get_plans (.ok [sampleDoc]) = ds.map planOfDoc) ∧
    (∀ e, (Except.error () : Except Unit (List PyDoc)) = .error e →
      get_case_studies (.error ()) = defaultCaseStudies) ∧
    ((Except.error () : Except Unit (List PyDoc)) = .ok [] →
      get_case_studies (.error ()) = defaultCaseStudies) ∧
    (∀ ds, (Except.error () : Except Unit (List PyDoc)) = .ok ds → ds ≠ [] →
      get_case_studies (.error ()) = ds.map caseStudyOfDoc) :=
  content_handlers_degrade (.ok [sampleDoc]) (.error ())

/-- C8: a chat request supplying a non-empty `conversation_id` never
touches the conversation collection, and — whatever the database state,
with no check that the conversation exists — any response returned carries
the supplied id unchanged; with a valid message a response is returned. -/
theorem chat_given_id_frame (s : DBState) (req : ChatRequest) (c : Str)
    (hid : req.conversation_id = some c) (hc : c ≠ []) :
    (chat s req).2.conversations = s.conversations ∧
    (∀ r, (chat s req).1 = .ok r → r.conversation_id = c) ∧
    (pyStrip req.message ≠ [] →
      (chat s req).1 = .ok ⟨c, templateReply (pyStrip req.message)⟩) := by
  by_cases hmsg : pyStrip req.message = []
  · rw [chat_eq_of_invalid s req hmsg]
    exact ⟨rfl, fun r hr => Except.noConfusion hr, fun hn => absurd hmsg hn⟩
  · cases hav : s.available with
    | false =>
      rw [chat_eq_given_id_down s req c hmsg hid hc hav]
      refine ⟨rfl, ?_, fun _ => rfl⟩
      intro r hr
      rw [← Except.ok.inj hr]
    | true =>
      rw [chat_eq_given_id_up s req c hmsg hid hc hav]
      refine ⟨rfl, ?_, fun _ => rfl⟩
      intro r hr
      rw [← Except.ok.inj hr]

/-- Witness for `chat_given_id_frame` at conversation_id `"abc"` against
the unavailable database (where no such conversation can exist). -/
theorem chat_given_id_frame_witness :
    (chat downDB ⟨some "abc".data, "what".data⟩).2.conversations =
      downDB.conversations ∧
    (∀ r, (chat downDB ⟨some "abc".data, "what".data⟩).1 = .ok r →
      r.conversation_id = "abc".data) ∧
    (pyStrip "what".data ≠ [] →
      (chat downDB ⟨some "abc".data, "what".data⟩).1 =
        .ok ⟨"abc".data, templateReply (pyStrip "what".data)⟩) :=
  chat_given_id_frame downDB ⟨some "abc".data, "what".data⟩ "abc".data
    rfl (by decide)

/-- C9: the Conversation created for a request with no `conversation_id`
has as title exactly the first 60 characters of the stripped message; that
prefix is non-empty, so the `or "New Conversation"` fallback is never
taken. -/
theorem chat_created_title (s : DBState) (req : ChatRequest)
    (hav : s.available = true) (hid : req.conversation_id = none)
    (hmsg : pyStrip req.message ≠ []) :
    (chat s req).2.conversations =
      s.conversations ++
        [(freshId s.nextId,
          ConversationDoc.mk ((pyStrip req.message).take 60))] ∧
    (pyStrip req.message).take 60 ≠ [] := by
  have hidf : pyTruthyOptStr req.conversation_id = false := by rw [hid]; rfl
  have h := chat_eq_no_id_up s req hmsg hidf hav
  exact ⟨by rw [h], take_sixty_ne_nil hmsg⟩

/-- Witness for `chat_created_title` at the request `" review my lease "`. -/
theorem chat_created_title_witness :
    (chat emptyDB ⟨none, " review my lease ".data⟩).2.conversations =
      emptyDB.conversations ++
        [(freshId emptyDB.nextId,
          ConversationDoc.mk ((pyStrip " review my lease ".data).take 60))] ∧
    (pyStrip " review my lease ".data).take 60 ≠ [] :=
  chat_created_title emptyDB ⟨none, " review my lease ".data⟩
    rfl rfl (by decide)

/-- C10 (counterexample): a plan document storing the truthy non-list
value `"oops"` under `"features"` makes `get_plans` return that value
unchanged — the resulting features field is not a list, refuting the
claim as stated. -/
theorem plan_features_not_list_cex :
    pyIsList
      (planOfDoc [("features".data, PyVal.str "oops".data)]).features = false ∧
    get_plans (.ok [[("features".data, PyVal.str "oops".data)]]) =
      [⟨PyVal.null, PyVal.null, PyVal.null, PyVal.str "oops".data⟩] := by decide

/-- C10 (amended): for every document, the `features`/`metrics` field of
the built item is the empty list whenever the stored value is missing or
falsy, and the stored value passed through unchanged whenever it is truthy
— so it is a list exactly when the stored value is a list or
falsy/missing; every other field is the stored value, `None` when the key
is missing. -/
theorem content_item_fields (d : PyDoc) :
    (pyIsList (planOfDoc d).features = true ↔
      (pyIsList (pyGet d "features".data) = true ∨
       pyTruthy (pyGet d "features".data) = false)) ∧
    (pyTruthy (pyGet d "features".data) = false →
      (planOfDoc d).features = PyVal.list []) ∧
    (pyTruthy (pyGet d "features".data) = true →
      (planOfDoc d).features = pyGet d "features".data) ∧
    (pyTruthy (pyGet d "metrics".data) = false →
      (caseStudyOfDoc d).metrics = PyVal.list []) ∧
    (pyTruthy (pyGet d "metrics".data) = true →
      (caseStudyOfDoc d).metrics = pyGet d "metrics".data) ∧
    (planOfDoc d).name = pyGet d "name".data ∧
    (planOfDoc d).price = pyGet d "price".data ∧
    (planOfDoc d).description = pyGet d "description".data ∧
    (caseStudyOfDoc d).title = pyGet d "title".data ∧
    (caseStudyOfDoc d).industry = pyGet d "industry".data ∧
    (caseStudyOfDoc d).summary = pyGet d "summary".data ∧
    (caseStudyOfDoc d).impact = pyGet d "impact".data ∧
    pyGet [] "features".data = PyVal.null ∧
    pyTruthy PyVal.null = false ∧ pyTruthy (PyVal.list []) = false := by
  refine ⟨?_, ?_, ?_, ?_, ?_, rfl, rfl, rfl, rfl, rfl, rfl, rfl, rfl, rfl, rfl⟩
  · by_cases hf : pyTruthy (pyGet d "features".data) = true
    · simp [planOfDoc, hf, pyIsList]
    · simp only [Bool.not_eq_true] at hf
      simp [planOfDoc, hf, pyIsList]
  · intro hf
    simp [planOfDoc, hf]
  · intro hf
    simp [planOfDoc, hf]
  · intro hm
    simp [caseStudyOfDoc, hm]
  · intro hm
    simp [caseStudyOfDoc, hm]

/-- Witness for `content_item_fields` at `sampleDoc`, whose `"features"`
and `"metrics"` values are truthy lists and whose other fields are partly
missing. -/
theorem content_item_fields_witness :
    (pyIsList (planOfDoc sampleDoc).features = true ↔
      (pyIsList (pyGet sampleDoc "features".data) = true ∨
       pyTruthy (pyGet sampleDoc "features".data) = false)) ∧
    (pyTruthy (pyGet sampleDoc "features".data) = false →
      (planOfDoc sampleDoc).features = PyVal.list []) ∧
    (pyTruthy (pyGet sampleDoc "features".data) = true →
      (planOfDoc sampleDoc).features = pyGet sampleDoc "features".data) ∧
    (pyTruthy (pyGet sampleDoc "metrics".data) = false →
      (caseStudyOfDoc sampleDoc).metrics = PyVal.list []) ∧
    (pyTruthy (pyGet sampleDoc "metrics".data) = true →
      (caseStudyOfDoc sampleDoc).metrics = pyGet sampleDoc "metrics".data) ∧
    (planOfDoc sampleDoc).name = pyGet sampleDoc "name".data ∧
    (planOfDoc sampleDoc).price = pyGet sampleDoc "price".data ∧
    (planOfDoc sampleDoc).description =
      pyGet sampleDoc "description".data ∧
    (caseStudyOfDoc sampleDoc).title = pyGet sampleDoc "title".data ∧
    (caseStudyOfDoc sampleDoc).industry = pyGet sampleDoc "industry".data ∧
    (caseStudyOfDoc sampleDoc).summary = pyGet sampleDoc "summary".data ∧
    (caseStudyOfDoc sampleDoc).impact = pyGet sampleDoc "impact".data ∧
    pyGet [] "features".data = PyVal.null ∧
    pyTruthy PyVal.null = false ∧ pyTruthy (PyVal.list []) = false :=
  content_item_fields sampleDoc

end LegalChat
